import Mathlib

/-!
Shallow embedding of the voice-call conversation orchestrator of
`src/backend/app.py` (Flask): the webhook handlers `make_outbound_call`,
`handle_user_speech`, `handle_recording_status`,
`handle_transcription_status`, the TTS helper
`generate_audio_with_elevenlabs` and the recording reconciler
`_process_and_store_twilio_recording`.

Modelling conventions:
* The Supabase row of `active_call_sessions` keyed by the webhook's
  `CallSid` is the only database state a handler touches; it is passed in
  and returned as an `Option CallSession` (`none` = no row found).
* Python `request.form.get(k)` fields are `Option String` (`none` = field
  absent).  The Python `metadata` dict is modelled as a structure with one
  `Option` field per key the modelled code reads or writes (`none` = key
  absent); keys whose stored value can itself be Python `None` have type
  `Option (Option String)`.
* Wall-clock timestamps are threaded as a `Nat` parameter `now`; external
  effects (ElevenLabs stream, Groq HTTP call, Twilio download) are passed
  in as explicit outcome values.
* Recognition confidence is modelled as `ℚ`; the decimal literals involved
  (0.4, 0.2, 0.9) are exact in both doubles and rationals, and every
  comparison the code performs on them coincides.
-/

/-- One entry of a session's `conversation_history`.  Regular turns carry
only `speaker`, `text`, `timestamp`; the final-transcript turn appended by
`handle_transcription_status` also carries `source`,
`transcription_sid` and `confidence` keys (`none` models both an absent
key and a stored Python `None`). -/
structure Turn where
  speaker : String
  text : String
  timestamp : Nat
  source : Option String := none
  transcription_sid : Option String := none
  confidence : Option ℚ := none
  deriving DecidableEq, Repr

/-- The session `metadata` dict, restricted to the keys the modelled
handlers read or write.  `none` = key absent. -/
structure Meta where
  initial_message_spoken : Option String := none
  creator_name : Option String := none
  brand_name : Option String := none
  campaign_objective : Option String := none
  email_conversation_summary : Option String := none
  latest_twilio_call_status : Option (Option String) := none
  last_twilio_callback_source : Option String := none
  last_twilio_recording_sid : Option String := none
  twilio_recording_url : Option String := none
  twilio_recording_duration : Option (Option String) := none
  twilio_recording_sid : Option String := none
  twilio_recording_processed_successfully : Option Bool := none
  recording_processing_error : Option (Option String) := none
  twilio_transcription_text : Option String := none
  twilio_transcription_sid : Option (Option String) := none
  twilio_transcription_status : Option (Option String) := none
  twilio_transcription_url : Option (Option String) := none
  twilio_transcription_error_code : Option (Option String) := none
  twilio_transcription_error_message : Option (Option String) := none
  deriving DecidableEq, Repr

/-- One row of the `active_call_sessions` table (the columns the modelled
code touches).  The `status` column is written with a possibly-`None`
Python value by `handle_recording_status`, hence `Option String`. -/
structure CallSession where
  call_sid : String
  outreach_id : String
  user_id : Option String := none
  status : Option String := none
  conversation_history : List Turn := []
  metadata : Meta := {}
  deriving DecidableEq, Repr

/-- One TwiML verb of a webhook's response document. -/
inductive Verb where
  | play (url : String)
  | say (text : String)
  | gather (action : String) (speechTimeout : String)
  | hangup
  deriving DecidableEq, Repr

/-- The raw `Confidence` form field as delivered: absent, present but not
parseable by Python `float(...)`, or parseable with value `q`. -/
inductive ConfField where
  | missing
  | unparseable (raw : String)
  | value (q : ℚ)
  deriving DecidableEq, Repr

/-- `float(request.form.get('Confidence', '0.0'))` under
`try/except ValueError`: an absent field defaults to the string "0.0"
(which parses to 0), an unparseable field raises `ValueError` and is
replaced by 0.0. -/
def parseConfidence : ConfField → ℚ
  | .missing => 0
  | .unparseable _ => 0
  | .value q => q

/-- The constant 0.4 of `if speech_confidence < 0.4:` (written with
`mkRat` so that comparisons evaluate by `decide`). -/
def confidenceThreshold : ℚ := mkRat 4 10

/-- Outcome of the Groq chat-completion HTTP call made by
`handle_user_speech`. `requestError` covers network failures and non-2xx
responses (`raise_for_status`), `processingError` the generic
`except Exception` around response decoding, `badStructure` a decoded body
without a nonempty `choices` list, and `content t` the string
`choices[0].message.content` (possibly empty after `strip`). -/
inductive GroqResult where
  | requestError
  | processingError
  | badStructure
  | content (t : String)
  deriving DecidableEq, Repr

/-- Outcome of the Twilio recording download performed by
`_process_and_store_twilio_recording`: a `requests` exception / non-2xx,
or a payload of `bytes` bytes (0 = empty payload). -/
inductive DownloadResult where
  | requestError
  | payload (bytes : Nat)
  deriving DecidableEq, Repr

/-- Outcome of the ElevenLabs streaming call inside
`generate_audio_with_elevenlabs`: the `.stream(...)` call itself raises
(before any file is created), iteration raises after `bytesBefore` bytes
were already written to the temp file, or the stream yields chunks of the
given sizes in full. -/
inductive StreamOutcome where
  | raisesAtCall
  | raisesDuringWrite (bytesBefore : Nat)
  | ok (chunkSizes : List Nat)
  deriving DecidableEq, Repr

/-- The directory `TEMP_AUDIO_DIR` joined with a filename. -/
def tempAudioPath (filename : String) : String :=
  "temp_audio/" ++ filename

/-- The public URL `{base_url}/temp_audio/{filename}` built on success. -/
def tempAudioUrl (baseUrl filename : String) : String :=
  baseUrl ++ "/temp_audio/" ++ filename

/-- Result of `generate_audio_with_elevenlabs`: the returned pair
`(public_audio_url, local_temp_file_path)` plus the temp file (path and
size) left on disk by the call, if any. -/
structure TtsResult where
  publicUrl : Option String
  localPath : Option String
  fileOnDisk : Option (String × Nat)
  deriving DecidableEq, Repr

/-- `generate_audio_with_elevenlabs(text_to_speak, call_sid_for_filename)`.
The nondeterministic `uuid.uuid4()` component of the filename is passed in
as `uuid`; the ElevenLabs stream behaviour as `stream`; `os.remove` on an
existing file is modelled as succeeding.  Chunks are written under
`if chunk:` so the byte count is the sum of the chunk sizes (falsy empty
chunks contribute 0 either way). -/
def generate_audio_with_elevenlabs (clientAvailable : Bool)
    (stream : StreamOutcome) (call_sid_for_filename uuid baseUrl : String) :
    TtsResult :=
  if ¬clientAvailable then
    { publicUrl := none, localPath := none, fileOnDisk := none }
  else
    let filename := call_sid_for_filename ++ "_" ++ uuid ++ ".mp3"
    let temp_file_path := tempAudioPath filename
    match stream with
    | .raisesAtCall =>
        -- exception before `temp_file_path` is assigned: nothing to clean up
        { publicUrl := none, localPath := none, fileOnDisk := none }
    | .raisesDuringWrite _ =>
        -- exception mid-stream: the partially written file is removed
        { publicUrl := none, localPath := none, fileOnDisk := none }
    | .ok chunkSizes =>
        let bytes_written := chunkSizes.sum
        if bytes_written = 0 then
          -- empty file: removed, then (None, None)
          { publicUrl := none, localPath := none, fileOnDisk := none }
        else
          { publicUrl := some (tempAudioUrl baseUrl filename),
            localPath := some temp_file_path,
            fileOnDisk := some (temp_file_path, bytes_written) }

/-! Fixed utterances of the orchestrator, verbatim from `app.py`. -/

/-- Python `str.strip()` (no arguments): the string with leading and
trailing whitespace removed, written over the character list so that it
evaluates by `decide`. -/
def pyStrip (s : String) : String :=
  String.mk (((s.data.dropWhile Char.isWhitespace).reverse.dropWhile
    Char.isWhitespace).reverse)

/-- Repeat prompt of the low-confidence path of `handle_user_speech`. -/
def lowConfRepeatText : String :=
  "I'm sorry, I didn't catch that clearly. Could you please say that again?"

/-- Repeat prompt of the empty-speech path of `handle_user_speech`. -/
def emptySpeechRepeatText : String :=
  "Sorry, I didn't hear anything. Could you please say that again?"

/-- Deterministic fallback initialised into `ai_response_text_from_llm`
before the Groq call and kept on every failure. -/
def llmFallbackText : String :=
  "I'm having a little trouble formulating a response right now. Could you try again in a moment?"

/-- Spoken when no session row is found for the webhook's `CallSid`. -/
def noSessionText : String :=
  "I'm sorry, there was an issue retrieving our conversation context. Please try calling back later."

/-- No-input fallback spoken after the gather of the low-confidence path. -/
def lowConfGoodbyeText : String :=
  "Sorry, I still didn't catch that. Goodbye."

/-- No-input fallback spoken after the gather of the empty-speech path. -/
def emptyGoodbyeText : String :=
  "We still didn't catch that. Please try calling back. Goodbye."

/-- No-input fallback spoken after the gather of the initial call TwiML
built by `make_outbound_call`. -/
def initialNoInputText : String :=
  "We didn't receive a response. If you'd like to talk, please call us back later. Goodbye."

/-- Gather action URL used by `make_outbound_call`
(`{BACKEND_PUBLIC_URL}/api/voice/handle_user_speech?outreach_id={oid}`). -/
def speechActionUrlWithOid (backendUrl outreachId : String) : String :=
  backendUrl ++ "/api/voice/handle_user_speech?outreach_id=" ++ outreachId

/-- Gather action URL used inside `handle_user_speech` (no query). -/
def speechActionUrl (backendUrl : String) : String :=
  backendUrl ++ "/api/voice/handle_user_speech"

/-- An `ai` history entry as appended by the conversational handlers
(`{"speaker": "ai", "text": ..., "timestamp": ...}`). -/
def aiTurn (text : String) (now : Nat) : Turn :=
  { speaker := "ai", text := text, timestamp := now }

/-- A `user` history entry as appended on the accepted-speech path. -/
def userTurn (text : String) (now : Nat) : Turn :=
  { speaker := "user", text := text, timestamp := now }

/-- Truncation applied to `initial_message_spoken`
(`msg[:250] + "..." if len(msg) > 250 else msg`). -/
def truncate250 (s : String) : String :=
  if s.length > 250 then s.take 250 ++ "..." else s

/-- `make_outbound_call` (the part after the Twilio call is created): the
TwiML document handed to Twilio and the `active_call_sessions` row
inserted for the new call.  `ttsUrl` is the ElevenLabs result for the
greeting (`none` when the client is unavailable or synthesis failed). -/
def make_outbound_call (backendUrl message_to_speak outreach_id : String)
    (creator_name brand_name campaign_objective email_summary : String)
    (ttsUrl : Option String) (call_sid : String) (user_id : Option String)
    (now : Nat) : List Verb × CallSession :=
  let twiml :=
    (match ttsUrl with
      | some u => [Verb.play u]
      | none => [Verb.say message_to_speak]) ++
    [Verb.gather (speechActionUrlWithOid backendUrl outreach_id) "5",
     Verb.say initialNoInputText,
     Verb.hangup]
  let session : CallSession :=
    { call_sid := call_sid,
      outreach_id := outreach_id,
      user_id := user_id,
      status := some "initiated",
      conversation_history := [aiTurn message_to_speak now],
      metadata :=
        { initial_message_spoken := some (truncate250 message_to_speak),
          creator_name := some creator_name,
          brand_name := some brand_name,
          campaign_objective := some campaign_objective,
          email_conversation_summary := some email_summary } }
  (twiml, session)

/-- Form fields of a speech-gather webhook (`/api/voice/handle_user_speech`). -/
structure SpeechForm where
  SpeechResult : Option String := none
  Confidence : ConfField := ConfField.missing
  deriving Repr

/-- External-dependency outcomes for one `handle_user_speech` invocation:
whether the ElevenLabs client and key are configured, the URL produced by
`generate_audio_with_elevenlabs` for this turn (`none` = synthesis
failed), whether `groq_api_key` is set, whether
`build_live_voice_negotiation_prompt` returned a truthy prompt, the Groq
call outcome, and the wall clock. -/
structure SpeechEnv where
  elevenlabs_ok : Bool
  ttsUrl : Option String
  groq_api_key : Bool
  promptOk : Bool
  groq : GroqResult
  now : Nat
  deriving Repr

/-- What one `handle_user_speech` invocation produces: the TwiML body and
HTTP status returned to Twilio, the session row as persisted when the
handler returns, and whether the Groq HTTP request was attempted. -/
structure SpeechResult where
  twiml : List Verb
  httpStatus : Nat
  db : Option CallSession
  groqCalled : Bool
  deriving Repr

/-- The `play`-or-`say` choice: `elevenlabs_audio_url` is only ever set
when the client and key are configured and synthesis returned a URL. -/
def playOrSay (elevenlabs_ok : Bool) (ttsUrl : Option String)
    (text : String) : Verb :=
  match (if elevenlabs_ok then ttsUrl else none) with
  | some u => Verb.play u
  | none => Verb.say text

/-- The AI utterance computed by the Groq block of `handle_user_speech`:
`ai_response_text_from_llm` starts as the fallback and is replaced only
when the prompt built, the API key is set and the call yields a nonempty
stripped completion. -/
def groqReplyText (promptOk groqKey : Bool) (g : GroqResult) : String :=
  if promptOk && groqKey then
    match g with
    | GroqResult.content t =>
        if pyStrip t ≠ "" then pyStrip t else llmFallbackText
    | _ => llmFallbackText
  else llmFallbackText

/-- `handle_user_speech`: one speech-gather webhook.  `db` is the
`active_call_sessions` row for the webhook's `CallSid` (`none` = not
found, covering also a missing `CallSid`). -/
def handle_user_speech (env : SpeechEnv) (form : SpeechForm)
    (db : Option CallSession) (backendUrl : String) : SpeechResult :=
  let user_speech_text := pyStrip (form.SpeechResult.getD "")
  let speech_confidence := parseConfidence form.Confidence
  let action_url := speechActionUrl backendUrl
  match db with
  | none =>
      { twiml := [Verb.say noSessionText, Verb.hangup],
        httpStatus := 200, db := none, groqCalled := false }
  | some sess =>
      if speech_confidence < confidenceThreshold then
        -- low-confidence path: one AI repeat turn, no Groq call
        let sess1 := { sess with
          conversation_history :=
            sess.conversation_history ++ [aiTurn lowConfRepeatText env.now],
          status := some "waiting_for_user_speech_low_conf" }
        { twiml := [playOrSay env.elevenlabs_ok env.ttsUrl lowConfRepeatText,
                    Verb.gather action_url "5",
                    Verb.say lowConfGoodbyeText,
                    Verb.hangup],
          httpStatus := 200, db := some sess1, groqCalled := false }
      else if user_speech_text = "" then
        -- empty-speech path: one AI repeat turn, no Groq call
        let sess1 := { sess with
          conversation_history :=
            sess.conversation_history ++ [aiTurn emptySpeechRepeatText env.now],
          status := some "waiting_for_user_speech_empty" }
        { twiml := [playOrSay env.elevenlabs_ok env.ttsUrl emptySpeechRepeatText,
                    Verb.gather action_url "5",
                    Verb.say emptyGoodbyeText,
                    Verb.hangup],
          httpStatus := 200, db := some sess1, groqCalled := false }
      else
        -- accepted turn: append the user turn (persisted with status
        -- "processing_user_speech"), run the Groq block, append the AI
        -- turn, persist with status "waiting_for_user_speech"
        let hist1 := sess.conversation_history ++
          [userTurn user_speech_text env.now]
        let ai := groqReplyText env.promptOk env.groq_api_key env.groq
        let sess2 := { sess with
          conversation_history := hist1 ++ [aiTurn ai env.now],
          status := some "waiting_for_user_speech" }
        -- NOTE: the final TwiML appends the gather and then `Hangup()`
        -- directly; the bare `next_gather` statement in the source is a
        -- no-op, so no <Say> precedes the hangup on this path.
        { twiml := [playOrSay env.elevenlabs_ok env.ttsUrl ai,
                    Verb.gather action_url "5",
                    Verb.hangup],
          httpStatus := 200, db := some sess2,
          groqCalled := env.promptOk && env.groq_api_key }

/-- Form fields of a recording/call-status webhook
(`/api/voice/recording-status`). -/
structure RecForm where
  CallSid : Option String := none
  RecordingSid : Option String := none
  RecordingUrl : Option String := none
  RecordingDuration : Option String := none
  CallStatus : Option String := none
  deriving Repr

/-- Durable-storage path
`f"{outreach_id}/{call_sid}_{recording_sid}.mp3"` used by
`_process_and_store_twilio_recording`. -/
def recordingStoragePath (outreach_id call_sid recording_sid : String) :
    String :=
  outreach_id ++ "/" ++ call_sid ++ "_" ++ recording_sid ++ ".mp3"

/-- The stable public URL Supabase storage returns for a path
(`get_public_url` is deterministic in the path). -/
def storagePublicUrl (path : String) : String :=
  "supabase://call-recordings/" ++ path

/-- Supabase storage upload with `upsert: "true"`: at most one object per
path; re-uploading a path overwrites it in place. The storage bucket is
modelled as the list of object paths present. -/
def uploadUpsert (storage : List String) (path : String) : List String :=
  if path ∈ storage then storage else storage ++ [path]

/-- `update_call_session_with_error` inside
`_process_and_store_twilio_recording`: fetch-merge-update that records the
error message under `recording_processing_error`, sets
`twilio_recording_processed_successfully` to `False` and the status to
`error_processing_recording`.  A missing row updates nothing. -/
def update_call_session_with_error (msg : String)
    (db : Option CallSession) : Option CallSession :=
  db.map fun s =>
    { s with
      metadata := { s.metadata with
        recording_processing_error := some (some msg),
        twilio_recording_processed_successfully := some false },
      status := some "error_processing_recording" }

/-- `_process_and_store_twilio_recording`: downloads the Twilio recording
(outcome `dl`), uploads it to the `call-recordings` bucket and updates the
session row.  `clientsOk` is `supabase_admin_client and twilio_client`.
Error messages are modelled by short fixed strings (the source
interpolates the ids and exception text into them). -/
def _process_and_store_twilio_recording (clientsOk : Bool)
    (dl : DownloadResult) (call_sid recording_sid outreach_id : String)
    (recording_duration_str : Option String) (db : Option CallSession)
    (storage : List String) : Option CallSession × List String :=
  if ¬clientsOk then
    (update_call_session_with_error
      "Supabase or Twilio client not available." db, storage)
  else
    match dl with
    | DownloadResult.requestError =>
        (update_call_session_with_error
          "Network error downloading recording." db, storage)
    | DownloadResult.payload bytes =>
        if bytes = 0 then
          (update_call_session_with_error
            "Downloaded recording was empty." db, storage)
        else
          let storage_path :=
            recordingStoragePath outreach_id call_sid recording_sid
          let storage1 := uploadUpsert storage storage_path
          let public_url_supabase := storagePublicUrl storage_path
          -- fetch-merge-update of the session row: recording keys are
          -- merged into the (freshly fetched) metadata, the status column
          -- is preserved (`existing.get('status', default)` returns the
          -- row's value since the key is always present)
          let db1 := db.map fun s =>
            { s with
              metadata := { s.metadata with
                twilio_recording_url := some public_url_supabase,
                twilio_recording_duration := some
                  (match recording_duration_str with
                    | some d => some d
                    | none => s.metadata.twilio_recording_duration.getD none),
                twilio_recording_sid := some recording_sid,
                twilio_recording_processed_successfully := some true,
                recording_processing_error := some none } }
          (db1, storage1)

/-- The skip-or-process decision of `handle_recording_status`
(`if recording_processed_successfully: ... elif actual_call_status ==
'completed' and recording_sid and recording_url_twilio: ... else: ...`
— every branch other than the hand-off leaves the row and the bucket
unchanged). -/
def recordingStep (doProcess : Bool) (clientsOk : Bool)
    (dl : DownloadResult) (call_sid recording_sid outreach_id : String)
    (dur : Option String) (db : Option CallSession)
    (storage : List String) : Option CallSession × List String :=
  if doProcess then
    _process_and_store_twilio_recording clientsOk dl call_sid recording_sid
      outreach_id dur db storage
  else (db, storage)

/-- What one `handle_recording_status` invocation produces:
`processedRecording` records whether the handler handed off to
`_process_and_store_twilio_recording`. -/
structure RecResult where
  httpStatus : Nat
  db : Option CallSession
  storage : List String
  processedRecording : Bool
  deriving Repr

/-- `handle_recording_status`: one `/api/voice/recording-status` webhook.
`outreach_id_q` and `source` are the query parameters; `db` is the
`active_call_sessions` row matching the form's `CallSid` (`none` = no such
row).  NOTE (faithful to the source): the final update block reuses
`call_session_data` fetched at the start of the handler, so the metadata
it writes back is the pre-processing copy plus the `latest_*` keys. -/
def handle_recording_status (outreach_id_q : Option String)
    (source : String) (form : RecForm) (clientsOk : Bool)
    (dl : DownloadResult) (db : Option CallSession)
    (storage : List String) : RecResult :=
  match form.CallSid with
  | none =>
      { httpStatus := 400, db := db, storage := storage,
        processedRecording := false }
  | some call_sid =>
      -- resolve outreach_id: query parameter, else DB lookup by CallSid
      let outreach_resolved : Option String :=
        match outreach_id_q with
        | some oid => some oid
        | none => db.map (fun s => s.outreach_id)
      match outreach_resolved with
      | none =>
          { httpStatus := 400, db := db, storage := storage,
            processedRecording := false }
      | some outreach_id =>
          -- initial fetch; this local copy is also what the final update
          -- block below merges into
          let call_session_data := db
          let recording_processed_successfully :=
            match call_session_data with
            | some s =>
                s.metadata.twilio_recording_processed_successfully.getD false
            | none => false
          let doProcess : Bool := !recording_processed_successfully &&
            decide (form.CallStatus = some "completed") &&
            form.RecordingSid.isSome && form.RecordingUrl.isSome
          let step := recordingStep doProcess clientsOk dl call_sid
            (form.RecordingSid.getD "") outreach_id
            form.RecordingDuration db storage
          -- final update block: stale `call_session_data` metadata plus
          -- the `latest_*` keys, and the status column overwritten with
          -- the delivered CallStatus (possibly None)
          let stale_meta :=
            match call_session_data with
            | some s => s.metadata
            | none => {}
          let meta2 := { stale_meta with
            latest_twilio_call_status := some form.CallStatus,
            last_twilio_callback_source := some source,
            last_twilio_recording_sid :=
              match form.RecordingSid with
              | some r => some r
              | none => stale_meta.last_twilio_recording_sid }
          let db2 := step.1.map fun s =>
            { s with metadata := meta2, status := form.CallStatus }
          { httpStatus := 200, db := db2, storage := step.2,
            processedRecording := doProcess }

/-- Form fields of a transcription-status webhook
(`/api/voice/transcription-status`). -/
structure TransForm where
  CallSid : Option String := none
  TranscriptionSid : Option String := none
  TranscriptionStatus : Option String := none
  TranscriptionText : Option String := none
  TranscriptionUrl : Option String := none
  ErrorCode : Option String := none
  ErrorMessage : Option String := none
  deriving Repr

/-- `f"{current_db_status or 'unknown'}..."`: Python `or` replaces both
`None` and the empty string by "unknown". -/
def statusOrUnknown : Option String → String
  | some st => if st = "" then "unknown" else st
  | none => "unknown"

/-- The final-transcript history entry appended by
`handle_transcription_status` on a completed transcription. -/
def transcriptTurn (text : String) (tsid : Option String) (now : Nat) :
    Turn :=
  { speaker := "user", text := text, timestamp := now,
    source := some "twilio_final_transcript",
    transcription_sid := tsid, confidence := none }

/-- `handle_transcription_status`: one `/api/voice/transcription-status`
webhook.  `clientsOk` is `supabase_admin_client`; `db` is the row matching
the form's `CallSid`.  Always answers 200 with an empty body. -/
def handle_transcription_status (outreach_id_q : Option String)
    (form : TransForm) (clientsOk : Bool) (db : Option CallSession)
    (now : Nat) : Option CallSession :=
  match form.CallSid with
  | none => db
  | some _ =>
      if ¬clientsOk then db
      else
        match db with
        | none => db
        | some s =>
            let final_outreach_id :=
              match outreach_id_q with
              | some oid => oid
              | none => s.outreach_id
            if final_outreach_id = "" then db
            else
              let text_truthy : Bool :=
                match form.TranscriptionText with
                | some t => t != ""
                | none => false
              if decide (form.TranscriptionStatus = some "completed") &&
                  text_truthy then
                let text := form.TranscriptionText.getD ""
                some { s with
                  metadata := { s.metadata with
                    twilio_transcription_text := some text,
                    twilio_transcription_sid := some form.TranscriptionSid,
                    twilio_transcription_status :=
                      some form.TranscriptionStatus,
                    twilio_transcription_url := some form.TranscriptionUrl,
                    twilio_transcription_error_code := some none,
                    twilio_transcription_error_message := some none },
                  conversation_history := s.conversation_history ++
                    [transcriptTurn text form.TranscriptionSid now],
                  status := some
                    (statusOrUnknown s.status ++ "_transcript_completed") }
              else if form.TranscriptionStatus = some "failed" then
                some { s with
                  metadata := { s.metadata with
                    twilio_transcription_status :=
                      some form.TranscriptionStatus,
                    twilio_transcription_error_code := some form.ErrorCode,
                    twilio_transcription_error_message :=
                      some form.ErrorMessage },
                  status := some
                    (statusOrUnknown s.status ++ "_transcript_failed") }
              else
                some { s with
                  metadata := { s.metadata with
                    twilio_transcription_status :=
                      some form.TranscriptionStatus } }

/-! Concrete fixtures used by witnesses and counterexamples. -/

/-- A session as created by call initiation (greeting only in history). -/
def sampleSession : CallSession :=
  (make_outbound_call "https://api.example" "Hi Alex, got a minute?" "out1"
    "Alex" "BrandCo" "discuss a potential collaboration" "No prior summary."
    none "CA1" (some "user-1") 1).2

/-- A dependency environment in which the Groq call succeeds. -/
def sampleEnv : SpeechEnv :=
  { elevenlabs_ok := false, ttsUrl := none, groq_api_key := true,
    promptOk := true, groq := GroqResult.content "Great, let me explain.",
    now := 7 }

/-- C1: on an existing call session, a speech-gather webhook whose parsed
recognition confidence is below 0.4 appends exactly one AI repeat-prompt
turn (and no User turn), does not invoke the Turn Generator, and returns a
200 response document that re-opens the speech-gather window. -/
theorem C1_low_confidence_gate (env : SpeechEnv) (form : SpeechForm)
    (sess : CallSession) (backendUrl : String)
    (h : parseConfidence form.Confidence < confidenceThreshold) :
    handle_user_speech env form (some sess) backendUrl =
      { twiml := [playOrSay env.elevenlabs_ok env.ttsUrl lowConfRepeatText,
                  Verb.gather (speechActionUrl backendUrl) "5",
                  Verb.say lowConfGoodbyeText,
                  Verb.hangup],
        httpStatus := 200,
        db := some { sess with
          conversation_history :=
            sess.conversation_history ++ [aiTurn lowConfRepeatText env.now],
          status := some "waiting_for_user_speech_low_conf" },
        groqCalled := false } := by
  simp [handle_user_speech, h]

theorem C1_low_confidence_gate_witness :
    parseConfidence (ConfField.value (mkRat 2 10)) < confidenceThreshold ∧
    handle_user_speech sampleEnv
        { SpeechResult := some "xyz", Confidence := ConfField.value (mkRat 2 10) }
        (some sampleSession) "https://api.example" =
      { twiml := [playOrSay sampleEnv.elevenlabs_ok sampleEnv.ttsUrl
                    lowConfRepeatText,
                  Verb.gather (speechActionUrl "https://api.example") "5",
                  Verb.say lowConfGoodbyeText,
                  Verb.hangup],
        httpStatus := 200,
        db := some { sampleSession with
          conversation_history := sampleSession.conversation_history ++
            [aiTurn lowConfRepeatText sampleEnv.now],
          status := some "waiting_for_user_speech_low_conf" },
        groqCalled := false } :=
  ⟨by decide, C1_low_confidence_gate _ _ _ _ (by decide)⟩

/-- C2: on an existing call session, a speech-gather webhook with
non-empty recognized text and confidence at least 0.4 appends the
recognized text as a User turn, then one AI turn (the Turn Generator's
reply or the deterministic fallback), and persists the session with
status `waiting_for_user_speech`; applied to the session created by call
initiation, the history afterwards is exactly the 3 entries AI greeting,
User reply, AI follow-up. -/
theorem C2_accepted_turn (env : SpeechEnv) (form : SpeechForm)
    (sess : CallSession) (backendUrl : String)
    (h1 : ¬ parseConfidence form.Confidence < confidenceThreshold)
    (h2 : pyStrip (form.SpeechResult.getD "") ≠ "") :
    handle_user_speech env form (some sess) backendUrl =
      { twiml := [playOrSay env.elevenlabs_ok env.ttsUrl
                    (groqReplyText env.promptOk env.groq_api_key env.groq),
                  Verb.gather (speechActionUrl backendUrl) "5",
                  Verb.hangup],
        httpStatus := 200,
        db := some { sess with
          conversation_history := sess.conversation_history ++
            [userTurn (pyStrip (form.SpeechResult.getD "")) env.now,
             aiTurn (groqReplyText env.promptOk env.groq_api_key env.groq)
               env.now],
          status := some "waiting_for_user_speech" },
        groqCalled := env.promptOk && env.groq_api_key } ∧
    ∀ (b2 greeting oid cn bn co es csid : String) (tts : Option String)
      (uid : Option String) (t0 : Nat),
      ((handle_user_speech env form
          (some (make_outbound_call b2 greeting oid cn bn co es tts csid uid
            t0).2) backendUrl).db.map
        fun s => s.conversation_history.map
          fun t => (t.speaker, t.text)) =
      some [("ai", greeting),
            ("user", pyStrip (form.SpeechResult.getD "")),
            ("ai", groqReplyText env.promptOk env.groq_api_key env.groq)] := by
  constructor
  · simp [handle_user_speech, h1, h2]
  · intro b2 greeting oid cn bn co es csid tts uid t0
    simp [handle_user_speech, h1, h2, make_outbound_call, aiTurn, userTurn]

theorem C2_accepted_turn_witness :
    ¬ parseConfidence (ConfField.value (mkRat 9 10)) < confidenceThreshold ∧
    pyStrip ((some "Sure, what's this about?" : Option String).getD "") ≠ "" ∧
    ((handle_user_speech sampleEnv
        { SpeechResult := some "Sure, what's this about?",
          Confidence := ConfField.value (mkRat 9 10) }
        (some sampleSession) "https://api.example").db.map
      fun s => (s.status, s.conversation_history.map
        fun t => (t.speaker, t.text))) =
      some (some "waiting_for_user_speech",
            [("ai", "Hi Alex, got a minute?"),
             ("user", "Sure, what's this about?"),
             ("ai", "Great, let me explain.")]) := by
  refine ⟨by decide, by decide, ?_⟩
  rw [(C2_accepted_turn sampleEnv
      { SpeechResult := some "Sure, what's this about?",
        Confidence := ConfField.value (mkRat 9 10) }
      sampleSession "https://api.example" (by decide) (by decide)).1]
  decide

/-- The failure modes of the Turn Generator listed by the spec: network
error or non-2xx response, empty or structurally unexpected completion,
or missing API key. -/
def llmFailure (env : SpeechEnv) : Prop :=
  env.groq = GroqResult.requestError ∨
  env.groq = GroqResult.processingError ∨
  env.groq = GroqResult.badStructure ∨
  (∃ t, env.groq = GroqResult.content t ∧ pyStrip t = "") ∨
  env.groq_api_key = false

/-- C3: when the Turn Generator's LLM call fails in any way, the AI
utterance served is the fixed non-empty fallback string, it is appended
to the history and spoken (play-or-say of that text heads the response),
and the webhook still returns a 200 response document. -/
theorem C3_llm_failure_fallback (env : SpeechEnv) (form : SpeechForm)
    (sess : CallSession) (backendUrl : String)
    (hfail : llmFailure env)
    (h1 : ¬ parseConfidence form.Confidence < confidenceThreshold)
    (h2 : pyStrip (form.SpeechResult.getD "") ≠ "") :
    groqReplyText env.promptOk env.groq_api_key env.groq = llmFallbackText ∧
    llmFallbackText ≠ "" ∧
    (handle_user_speech env form (some sess) backendUrl).httpStatus = 200 ∧
    (handle_user_speech env form (some sess) backendUrl).twiml =
      [playOrSay env.elevenlabs_ok env.ttsUrl llmFallbackText,
       Verb.gather (speechActionUrl backendUrl) "5",
       Verb.hangup] ∧
    ((handle_user_speech env form (some sess) backendUrl).db.map
      fun s => s.conversation_history.getLast?.map Turn.text) =
      some (some llmFallbackText) := by
  have hrep : groqReplyText env.promptOk env.groq_api_key env.groq =
      llmFallbackText := by
    rcases hfail with h | h | h | ⟨t, h, ht⟩ | h
    · simp [groqReplyText, h]
    · simp [groqReplyText, h]
    · simp [groqReplyText, h]
    · simp [groqReplyText, h, ht]
    · simp [groqReplyText, h]
  refine ⟨hrep, by decide, ?_, ?_, ?_⟩ <;>
    simp [handle_user_speech, h1, h2, hrep, aiTurn]

theorem C3_llm_failure_fallback_witness :
    llmFailure { sampleEnv with groq := GroqResult.requestError } ∧
    ¬ parseConfidence (ConfField.value (mkRat 9 10)) < confidenceThreshold ∧
    pyStrip ((some "Sure, what's this about?" : Option String).getD "") ≠ "" ∧
    (groqReplyText sampleEnv.promptOk sampleEnv.groq_api_key
        GroqResult.requestError = llmFallbackText ∧
      llmFallbackText ≠ "" ∧
      (handle_user_speech { sampleEnv with groq := GroqResult.requestError }
          { SpeechResult := some "Sure, what's this about?",
            Confidence := ConfField.value (mkRat 9 10) }
          (some sampleSession) "https://api.example").httpStatus = 200 ∧
      (handle_user_speech { sampleEnv with groq := GroqResult.requestError }
          { SpeechResult := some "Sure, what's this about?",
            Confidence := ConfField.value (mkRat 9 10) }
          (some sampleSession) "https://api.example").twiml =
        [playOrSay sampleEnv.elevenlabs_ok sampleEnv.ttsUrl llmFallbackText,
         Verb.gather (speechActionUrl "https://api.example") "5",
         Verb.hangup] ∧
      ((handle_user_speech { sampleEnv with groq := GroqResult.requestError }
          { SpeechResult := some "Sure, what's this about?",
            Confidence := ConfField.value (mkRat 9 10) }
          (some sampleSession) "https://api.example").db.map
        fun s => s.conversation_history.getLast?.map Turn.text) =
        some (some llmFallbackText)) :=
  ⟨Or.inl rfl, by decide, by decide,
    C3_llm_failure_fallback { sampleEnv with groq := GroqResult.requestError }
      { SpeechResult := some "Sure, what's this about?",
        Confidence := ConfField.value (mkRat 9 10) }
      sampleSession "https://api.example"
      (Or.inl rfl) (by decide) (by decide)⟩

/-- C6 counterexample: a speech-gather webhook with empty recognized text
but reported confidence 0.2 (below 0.4) does NOT take the empty-speech
"nothing heard" path: the low-confidence check runs first, so the
appended AI turn carries the "unclear" wording and the low-confidence
status — refuting "regardless of the reported confidence value". -/
theorem C6_empty_speech_counterexample :
    ((handle_user_speech sampleEnv
        { SpeechResult := some "", Confidence := ConfField.value (mkRat 2 10) }
        (some sampleSession) "https://api.example").db.map
      fun s => (s.status, s.conversation_history.getLast?.map Turn.text)) =
      some (some "waiting_for_user_speech_low_conf",
            some lowConfRepeatText) ∧
    lowConfRepeatText ≠ emptySpeechRepeatText := by
  constructor
  · simp [handle_user_speech, parseConfidence, confidenceThreshold,
      show (mkRat 2 10) < mkRat 4 10 by decide, aiTurn]
  · decide

/-- C6 (amended): on an existing call session, a speech-gather webhook
whose recognized text strips to the empty string AND whose confidence is
at least 0.4 follows the same control flow as the low-confidence gate —
exactly one AI repeat-prompt turn, no Turn Generator call, re-opened
gather window — with the distinct "nothing heard" wording.  (When the
confidence is below 0.4 the low-confidence path runs instead.) -/
theorem C6_empty_speech_gate (env : SpeechEnv) (form : SpeechForm)
    (sess : CallSession) (backendUrl : String)
    (h1 : ¬ parseConfidence form.Confidence < confidenceThreshold)
    (h2 : pyStrip (form.SpeechResult.getD "") = "") :
    handle_user_speech env form (some sess) backendUrl =
      { twiml := [playOrSay env.elevenlabs_ok env.ttsUrl
                    emptySpeechRepeatText,
                  Verb.gather (speechActionUrl backendUrl) "5",
                  Verb.say emptyGoodbyeText,
                  Verb.hangup],
        httpStatus := 200,
        db := some { sess with
          conversation_history := sess.conversation_history ++
            [aiTurn emptySpeechRepeatText env.now],
          status := some "waiting_for_user_speech_empty" },
        groqCalled := false } ∧
    emptySpeechRepeatText ≠ lowConfRepeatText := by
  refine ⟨by simp [handle_user_speech, h1, h2], by decide⟩

theorem C6_empty_speech_gate_witness :
    ¬ parseConfidence (ConfField.value (mkRat 9 10)) < confidenceThreshold ∧
    pyStrip ((some "" : Option String).getD "") = "" ∧
    (handle_user_speech sampleEnv
        { SpeechResult := some "", Confidence := ConfField.value (mkRat 9 10) }
        (some sampleSession) "https://api.example" =
      { twiml := [playOrSay sampleEnv.elevenlabs_ok sampleEnv.ttsUrl
                    emptySpeechRepeatText,
                  Verb.gather (speechActionUrl "https://api.example") "5",
                  Verb.say emptyGoodbyeText,
                  Verb.hangup],
        httpStatus := 200,
        db := some { sampleSession with
          conversation_history := sampleSession.conversation_history ++
            [aiTurn emptySpeechRepeatText sampleEnv.now],
          status := some "waiting_for_user_speech_empty" },
        groqCalled := false } ∧
      emptySpeechRepeatText ≠ lowConfRepeatText) :=
  ⟨by decide, by decide,
    C6_empty_speech_gate sampleEnv
      { SpeechResult := some "", Confidence := ConfField.value (mkRat 9 10) }
      sampleSession "https://api.example" (by decide) (by decide)⟩

/-- C10: the speech-turn handler is total in the `Confidence` form field —
a missing or unparseable value is treated as 0.0 and therefore (0.0 < 0.4)
always takes the low-confidence repeat path, even with non-empty
recognized text, instead of raising or advancing the turn. -/
theorem C10_confidence_parse_total (env : SpeechEnv) (form : SpeechForm)
    (sess : CallSession) (backendUrl : String)
    (h : form.Confidence = ConfField.missing ∨
      ∃ raw, form.Confidence = ConfField.unparseable raw) :
    parseConfidence form.Confidence = 0 ∧
    handle_user_speech env form (some sess) backendUrl =
      { twiml := [playOrSay env.elevenlabs_ok env.ttsUrl lowConfRepeatText,
                  Verb.gather (speechActionUrl backendUrl) "5",
                  Verb.say lowConfGoodbyeText,
                  Verb.hangup],
        httpStatus := 200,
        db := some { sess with
          conversation_history :=
            sess.conversation_history ++ [aiTurn lowConfRepeatText env.now],
          status := some "waiting_for_user_speech_low_conf" },
        groqCalled := false } := by
  have hp : parseConfidence form.Confidence = 0 := by
    rcases h with h | ⟨raw, h⟩ <;> simp [parseConfidence, h]
  refine ⟨hp, ?_⟩
  have hlt : parseConfidence form.Confidence < confidenceThreshold := by
    rw [hp]; decide
  simp [handle_user_speech, hlt]

theorem C10_confidence_parse_total_witness :
    ((SpeechForm.mk (some "I would love to talk") ConfField.missing).Confidence
        = ConfField.missing ∨
      ∃ raw, (SpeechForm.mk (some "I would love to talk")
        ConfField.missing).Confidence = ConfField.unparseable raw) ∧
    (parseConfidence ConfField.missing = 0 ∧
      handle_user_speech sampleEnv
          (SpeechForm.mk (some "I would love to talk") ConfField.missing)
          (some sampleSession) "https://api.example" =
        { twiml := [playOrSay sampleEnv.elevenlabs_ok sampleEnv.ttsUrl
                      lowConfRepeatText,
                    Verb.gather (speechActionUrl "https://api.example") "5",
                    Verb.say lowConfGoodbyeText,
                    Verb.hangup],
          httpStatus := 200,
          db := some { sampleSession with
            conversation_history := sampleSession.conversation_history ++
              [aiTurn lowConfRepeatText sampleEnv.now],
            status := some "waiting_for_user_speech_low_conf" },
          groqCalled := false }) :=
  ⟨Or.inl rfl,
    C10_confidence_parse_total sampleEnv
      (SpeechForm.mk (some "I would love to talk") ConfField.missing)
      sampleSession "https://api.example" (Or.inl rfl)⟩

/-- C7: `generate_audio_with_elevenlabs` is a total function (the Python
body catches every exception): for every input it either returns a public
URL together with a local path at which a non-empty audio file exists on
disk, or returns `(None, None)` with no temporary audio file left on
disk (partial and empty files are deleted). -/
theorem C7_synthesis_never_raises (clientAvailable : Bool)
    (stream : StreamOutcome) (csid uuid baseUrl : String) :
    (∃ n, 0 < n ∧
      generate_audio_with_elevenlabs clientAvailable stream csid uuid
          baseUrl =
        { publicUrl :=
            some (tempAudioUrl baseUrl (csid ++ "_" ++ uuid ++ ".mp3")),
          localPath := some (tempAudioPath (csid ++ "_" ++ uuid ++ ".mp3")),
          fileOnDisk :=
            some (tempAudioPath (csid ++ "_" ++ uuid ++ ".mp3"), n) }) ∨
    generate_audio_with_elevenlabs clientAvailable stream csid uuid baseUrl =
      { publicUrl := none, localPath := none, fileOnDisk := none } := by
  cases clientAvailable with
  | false => right; simp [generate_audio_with_elevenlabs]
  | true =>
    cases stream with
    | raisesAtCall => right; simp [generate_audio_with_elevenlabs]
    | raisesDuringWrite k => right; simp [generate_audio_with_elevenlabs]
    | ok sizes =>
      by_cases h : sizes.sum = 0
      · right; simp [generate_audio_with_elevenlabs, h]
      · exact Or.inl ⟨sizes.sum, Nat.pos_of_ne_zero h,
          by simp [generate_audio_with_elevenlabs, h]⟩

/-- C9: refuted on the accepted-turn path.  For the accepted-turn webhook
`SpeechResult="Sure, what's this about?", Confidence=0.9` the response
document is exactly say-of-the-AI-reply, the speech gather, then an
immediate `<Hangup/>`: no apology `<Say>` follows the gather (the source's
comment announces a nested Say for the no-input case, but the statement
below it is a no-op), so the accepted-turn response lacks the
apology-then-hang-up no-input fallback the claim asserts for every
per-turn response document. -/
theorem C9_accepted_turn_lacks_apology :
    (handle_user_speech sampleEnv
        { SpeechResult := some "Sure, what's this about?",
          Confidence := ConfField.value (mkRat 9 10) }
        (some sampleSession) "https://api.example").twiml =
      [Verb.say "Great, let me explain.",
       Verb.gather (speechActionUrl "https://api.example") "5",
       Verb.hangup] := by
  decide

/-- A session whose status already holds the terminal value `completed`. -/
def completedSession : CallSession :=
  { call_sid := "CA9", outreach_id := "out9", status := some "completed" }

/-- C4 counterexample: on a session whose status is the terminal
`completed`, a later webhook delivering `CallStatus=failed` overwrites
the status column with `failed` — the terminal status is not protected. -/
theorem C4_terminal_status_counterexample :
    completedSession.status = some "completed" ∧
    ((handle_recording_status (some "out9") "call_create"
        { CallSid := some "CA9", CallStatus := some "failed" }
        true (DownloadResult.payload 10) (some completedSession) []).db.map
      CallSession.status) = some (some "failed") ∧
    some "failed" ≠ some "completed" := by
  decide

/-- On an existing session row, `_process_and_store_twilio_recording`
only ever rewrites the row's metadata and status columns: the identity
columns and the conversation history pass through unchanged. -/
theorem process_changes_only_meta_and_status (clientsOk : Bool)
    (dl : DownloadResult) (a b oid : String) (dur : Option String)
    (s : CallSession) (storage : List String) :
    ∃ m st,
      (_process_and_store_twilio_recording clientsOk dl a b oid dur
          (some s) storage).1 =
        some { s with metadata := m, status := st } := by
  cases clientsOk with
  | false =>
    exact ⟨{ s.metadata with
        recording_processing_error :=
          some (some "Supabase or Twilio client not available."),
        twilio_recording_processed_successfully := some false },
      some "error_processing_recording", by
        simp [_process_and_store_twilio_recording,
          update_call_session_with_error]⟩
  | true =>
    cases dl with
    | requestError =>
      exact ⟨{ s.metadata with
          recording_processing_error :=
            some (some "Network error downloading recording."),
          twilio_recording_processed_successfully := some false },
        some "error_processing_recording", by
          simp [_process_and_store_twilio_recording,
            update_call_session_with_error]⟩
    | payload n =>
      by_cases h : n = 0
      · exact ⟨{ s.metadata with
            recording_processing_error :=
              some (some "Downloaded recording was empty."),
            twilio_recording_processed_successfully := some false },
          some "error_processing_recording", by
            simp [_process_and_store_twilio_recording,
              update_call_session_with_error, h]⟩
      · exact ⟨{ s.metadata with
            twilio_recording_url :=
              some (storagePublicUrl (recordingStoragePath oid a b)),
            twilio_recording_duration := some
              (match dur with
                | some d => some d
                | none => s.metadata.twilio_recording_duration.getD none),
            twilio_recording_sid := some b,
            twilio_recording_processed_successfully := some true,
            recording_processing_error := some none },
          s.status, by
            simp [_process_and_store_twilio_recording, h]⟩

/-- `recordingStep` likewise only rewrites metadata and status of an
existing row. -/
theorem step_changes_only_meta_and_status (doProcess clientsOk : Bool)
    (dl : DownloadResult) (a b oid : String) (dur : Option String)
    (s : CallSession) (storage : List String) :
    ∃ m st,
      (recordingStep doProcess clientsOk dl a b oid dur (some s)
          storage).1 =
        some { s with metadata := m, status := st } := by
  cases doProcess with
  | false => exact ⟨s.metadata, s.status, rfl⟩
  | true =>
    simpa [recordingStep] using
      process_changes_only_meta_and_status clientsOk dl a b oid dur s storage

/-- C4 (amended): every recording/status webhook on an existing session
overwrites the status column with the delivered `CallStatus` value
(whatever the current status, terminal included), and records the
delivered signal in `metadata.latest_twilio_call_status` (together with
the callback source) — so a conflicting later signal is recorded in
metadata but ALSO replaces the status rather than being kept out of it. -/
theorem C4_status_always_overwritten (oq : Option String) (source : String)
    (form : RecForm) (clientsOk : Bool) (dl : DownloadResult)
    (s : CallSession) (storage : List String) (c : String)
    (hc : form.CallSid = some c) :
    ∃ m : Meta,
      (handle_recording_status oq source form clientsOk dl (some s)
          storage).db =
        some { s with
          metadata := { m with
            latest_twilio_call_status := some form.CallStatus,
            last_twilio_callback_source := some source },
          status := form.CallStatus } := by
  refine ⟨{ s.metadata with
    last_twilio_recording_sid := match form.RecordingSid with
      | some r => some r
      | none => s.metadata.last_twilio_recording_sid }, ?_⟩
  rcases oq with _ | oid <;>
    simp only [handle_recording_status, hc, Option.map_some'] <;>
    [(obtain ⟨m, st, hp⟩ := step_changes_only_meta_and_status
        (!s.metadata.twilio_recording_processed_successfully.getD false &&
          decide (form.CallStatus = some "completed") &&
          form.RecordingSid.isSome && form.RecordingUrl.isSome)
        clientsOk dl c (form.RecordingSid.getD "") s.outreach_id
        form.RecordingDuration s storage);
     (obtain ⟨m, st, hp⟩ := step_changes_only_meta_and_status
        (!s.metadata.twilio_recording_processed_successfully.getD false &&
          decide (form.CallStatus = some "completed") &&
          form.RecordingSid.isSome && form.RecordingUrl.isSome)
        clientsOk dl c (form.RecordingSid.getD "") oid
        form.RecordingDuration s storage)] <;>
    rw [hp] <;> rfl

theorem C4_status_always_overwritten_witness :
    ({ CallSid := some "CA9", CallStatus := some "failed" } : RecForm).CallSid
      = some "CA9" ∧
    ∃ m : Meta,
      (handle_recording_status (some "out9") "call_create"
          { CallSid := some "CA9", CallStatus := some "failed" }
          true (DownloadResult.payload 10) (some completedSession) []).db =
        some { completedSession with
          metadata := { m with
            latest_twilio_call_status := some (some "failed"),
            last_twilio_callback_source := some "call_create" },
          status := some "failed" } :=
  ⟨rfl, C4_status_always_overwritten (some "out9") "call_create"
    { CallSid := some "CA9", CallStatus := some "failed" }
    true (DownloadResult.payload 10) completedSession [] "CA9" rfl⟩

/-- The session of a completed call, before any recording webhook. -/
def c5Session : CallSession :=
  { call_sid := "CA1", outreach_id := "out1", status := some "completed" }

/-- A completed-call recording webhook (CallSid CA1, RecordingSid RE1). -/
def c5Form : RecForm :=
  { CallSid := some "CA1", RecordingSid := some "RE1",
    RecordingUrl := some "https://api.twilio.com/rec/RE1",
    RecordingDuration := some "42", CallStatus := some "completed" }

/-- State after the first delivery of the recording webhook. -/
def c5First : RecResult :=
  handle_recording_status (some "out1") "call_create" c5Form true
    (DownloadResult.payload 100) (some c5Session) []

/-- State after the second, identical delivery. -/
def c5Second : RecResult :=
  handle_recording_status (some "out1") "call_create" c5Form true
    (DownloadResult.payload 100) c5First.db c5First.storage

/-- C5: refuted — the second identical delivery is NOT skipped.  The first
delivery does hand off to `_process_and_store_twilio_recording` (which
sets the processed flag and the URL), but the handler's final update block
writes back the metadata it fetched BEFORE processing, so after the first
delivery the flag and the stored URL are gone; the second delivery is
therefore re-processed (downloaded and uploaded again) instead of being
skipped, and after it the flag is again absent rather than `true`.  Only
the "exactly one durable-storage object" part survives, thanks to the
upsert upload to the same path. -/
theorem C5_duplicate_recording_not_skipped :
    c5First.processedRecording = true ∧
    (c5First.db.map fun s =>
      s.metadata.twilio_recording_processed_successfully) = some none ∧
    (c5First.db.map fun s => s.metadata.twilio_recording_url) = some none ∧
    c5Second.processedRecording = true ∧
    (c5Second.db.map fun s =>
      s.metadata.twilio_recording_processed_successfully) = some none ∧
    c5Second.storage = [recordingStoragePath "out1" "CA1" "RE1"] := by
  decide

/-- The session of a completed call whose transcript has not arrived. -/
def c8Session : CallSession :=
  { call_sid := "CA2", outreach_id := "out2", status := some "completed",
    conversation_history := [aiTurn "Hi Alex, got a minute?" 1] }

/-- A completed-transcription webhook for TranscriptionSid TR1. -/
def c8Form : TransForm :=
  { CallSid := some "CA2", TranscriptionSid := some "TR1",
    TranscriptionStatus := some "completed",
    TranscriptionText := some "Sure, what is this about?" }

/-- C8 counterexample: the conversation history after the second delivery
of the same completed-transcription webhook does not equal the history
after the first — the final-transcript turn is appended again (2 entries
after the first delivery, 3 after the second). -/
theorem C8_transcript_not_idempotent_counterexample :
    ((handle_transcription_status (some "out2") c8Form true
        (some c8Session) 5).map
      fun s => s.conversation_history.length) = some 2 ∧
    ((handle_transcription_status (some "out2") c8Form true
        (handle_transcription_status (some "out2") c8Form true
          (some c8Session) 5) 5).map
      fun s => s.conversation_history.length) = some 3 := by
  decide

/-- C8 (amended): re-delivering the same completed-transcription webhook
is idempotent on the session's metadata (the same keys are overwritten
with the same values) but NOT on the conversation history or status: the
second delivery appends the final-transcript turn to the history a second
time and appends another `_transcript_completed` suffix to the status. -/
theorem C8_duplicate_transcript_appends_again (oq : Option String)
    (form : TransForm) (s : CallSession) (now : Nat) (c t : String)
    (hc : form.CallSid = some c)
    (hst : form.TranscriptionStatus = some "completed")
    (ht : form.TranscriptionText = some t) (htne : t ≠ "")
    (ho : (match oq with
      | some oid => oid
      | none => s.outreach_id) ≠ "") :
    ((handle_transcription_status oq form true
        (handle_transcription_status oq form true (some s) now) now).map
      CallSession.metadata) =
      ((handle_transcription_status oq form true (some s) now).map
        CallSession.metadata) ∧
    ((handle_transcription_status oq form true
        (handle_transcription_status oq form true (some s) now) now).map
      fun x => x.conversation_history) =
      ((handle_transcription_status oq form true (some s) now).map
        fun x => x.conversation_history ++
          [transcriptTurn t form.TranscriptionSid now]) ∧
    ((handle_transcription_status oq form true
        (handle_transcription_status oq form true (some s) now) now).map
      CallSession.status) =
      ((handle_transcription_status oq form true (some s) now).map
        fun x => some (statusOrUnknown x.status ++
          "_transcript_completed")) := by
  rcases oq with _ | oid <;>
    simp_all [handle_transcription_status, hc, hst, ht, htne]

theorem C8_duplicate_transcript_appends_again_witness :
    c8Form.CallSid = some "CA2" ∧
    c8Form.TranscriptionStatus = some "completed" ∧
    c8Form.TranscriptionText = some "Sure, what is this about?" ∧
    "Sure, what is this about?" ≠ "" ∧
    (match (some "out2" : Option String) with
      | some oid => oid
      | none => c8Session.outreach_id) ≠ "" ∧
    (((handle_transcription_status (some "out2") c8Form true
        (handle_transcription_status (some "out2") c8Form true
          (some c8Session) 5) 5).map
      CallSession.metadata) =
      ((handle_transcription_status (some "out2") c8Form true
          (some c8Session) 5).map
        CallSession.metadata) ∧
    ((handle_transcription_status (some "out2") c8Form true
        (handle_transcription_status (some "out2") c8Form true
          (some c8Session) 5) 5).map
      fun x => x.conversation_history) =
      ((handle_transcription_status (some "out2") c8Form true
          (some c8Session) 5).map
        fun x => x.conversation_history ++
          [transcriptTurn "Sure, what is this about?"
            c8Form.TranscriptionSid 5]) ∧
    ((handle_transcription_status (some "out2") c8Form true
        (handle_transcription_status (some "out2") c8Form true
          (some c8Session) 5) 5).map
      CallSession.status) =
      ((handle_transcription_status (some "out2") c8Form true
          (some c8Session) 5).map
        fun x => some (statusOrUnknown x.status ++
          "_transcript_completed"))) :=
  ⟨rfl, rfl, rfl, by decide, by decide,
    C8_duplicate_transcript_appends_again (some "out2") c8Form c8Session 5
      "CA2" "Sure, what is this about?" rfl rfl rfl (by decide) (by decide)⟩
